import Mathlib

/-!
Shallow embedding of `src/action/tfapi.go` (package main of the
tfcloud-provider-push-action repository): a thin client wrapper that builds
HTTP requests against a Terraform registry API, attaches authentication,
serializes JSON payloads and maps HTTP outcomes to errors.

Machine strings are Lean `String`s; raw byte payloads are `List Nat`
(each entry one byte).  Functions of the repository that are not under
`src/` (`buildRoute`, `setBearerToken`, `handleResponse`, the `Config`
and typed payload declarations) are modelled from the spec and marked as
such in their doc comments.
-/

/-! ## Constants (tfapi.go lines 16-33) -/

def headerAccept : String := "Accept"

def headerAuthorization : String := "Authorization"

def headerContentDisposition : String := "Content-Disposition"

def headerContentType : String := "Content-Type"

def applicationVNDAPIJSON : String := "application/vnd.api+json"

def applicationJSON : String := "application/json"

def pathAPI : String := "api"

def pathOrganizations : String := "organizations"

def pathPlatforms : String := "platforms"

def pathRegistryProviders : String := "registry-providers"

def pathVersions : String := "versions"

def pathV2 : String := "v2"

/-- Go `http.MethodPost`. -/
def httpMethodPost : String := "POST"

/-- Go `http.MethodPut`. -/
def httpMethodPut : String := "PUT"

/-- Go `http.StatusOK`. -/
def httpStatusOK : Nat := 200

/-- Go `http.StatusCreated`. -/
def httpStatusCreated : Nat := 201

/-! ## Bytes, percent-encoding and Go string helpers -/

/-- UTF-8 encoding of a single character, as Go sees strings (a string is a
byte sequence; multi-byte runes expand to their UTF-8 bytes). -/
def utf8Encode (c : Char) : List Nat :=
  let n := c.toNat
  if n < 0x80 then [n]
  else if n < 0x800 then [0xC0 + n / 0x40, 0x80 + n % 0x40]
  else if n < 0x10000 then
    [0xE0 + n / 0x1000, 0x80 + (n / 0x40) % 0x40, 0x80 + n % 0x40]
  else
    [0xF0 + n / 0x40000, 0x80 + (n / 0x1000) % 0x40, 0x80 + (n / 0x40) % 0x40,
      0x80 + n % 0x40]

/-- The bytes of a string (UTF-8), the representation Go's `[]byte(s)` uses. -/
def strToBytes (s : String) : List Nat :=
  (s.toList.map utf8Encode).flatten

/-- Upper-case hexadecimal digit, as Go's `net/url` uses for percent-encoding. -/
def hexDigitUpper (n : Nat) : Char :=
  if n < 10 then Char.ofNat (48 + n) else Char.ofNat (55 + n)

/-- Lower-case hexadecimal digit, as Go's `strconv` and `encoding/json` use. -/
def hexDigitLower (n : Nat) : Char :=
  if n < 10 then Char.ofNat (48 + n) else Char.ofNat (87 + n)

def isAlphaNumByte (b : Nat) : Bool :=
  (65 ≤ b && b ≤ 90) || (97 ≤ b && b ≤ 122) || (48 ≤ b && b ≤ 57)

/-- One byte of Go's `url.QueryEscape`: space becomes `+`, alphanumerics and
`-` `_` `.` `~` stay, every other byte becomes `%XX` with upper-case hex. -/
def queryEscapeByte (b : Nat) : List Char :=
  if b = 32 then ['+']
  else if isAlphaNumByte b || b = 45 || b = 95 || b = 46 || b = 126 then
    [Char.ofNat b]
  else ['%', hexDigitUpper (b / 16), hexDigitUpper (b % 16)]

/-- Go's `url.QueryEscape`. -/
def queryEscape (s : String) : String :=
  String.mk ((strToBytes s).map queryEscapeByte).flatten

/-- Insertion step for sorting query keys, mirroring the key sort inside
Go's `url.Values.Encode`. -/
def insertByKey (p : String × List String) :
    List (String × List String) → List (String × List String)
  | [] => [p]
  | q :: qs => if p.1 < q.1 ∨ p.1 = q.1 then p :: q :: qs else q :: insertByKey p qs

/-- Keys of a `url.Values` in sorted order, as `Encode` iterates them. -/
def sortByKey : List (String × List String) → List (String × List String)
  | [] => []
  | p :: ps => insertByKey p (sortByKey ps)

/-- Go's `url.Values.Encode`: keys sorted, each key/value pair rendered as
`key=value` with both sides query-escaped, pairs joined by `&`. -/
def urlValuesEncode (q : List (String × List String)) : String :=
  String.intercalate "&"
    ((sortByKey q).map
      (fun kv => kv.2.map (fun v => queryEscape kv.1 ++ "=" ++ queryEscape v))).flatten

/-- Go's `strings.Trim s cutset` for the single-character cutset used in
tfapi.go line 43: removes the character from both the start and the end. -/
def goStringsTrim (s : String) (c : Char) : String :=
  String.mk (((s.toList.dropWhile (· == c)).reverse.dropWhile (· == c)).reverse)

/-- Base-address normalisation as the spec words it: only trailing slashes
removed.  Kept separate from `goStringsTrim` (the source behaviour) so the
two can be compared. -/
def trimTrailingSlashes (s : String) : String :=
  String.mk ((s.toList.reverse.dropWhile (· == '/')).reverse)

/-- One character of Go's `strconv.Quote` (the `%q` verb of tfapi.go line 209):
quote and backslash are backslash-escaped, control characters get their
mnemonic or `\xHH` escape, printable characters pass through. -/
def goQuoteChar (c : Char) : List Char :=
  if c = '"' then ['\\', '"']
  else if c = '\\' then ['\\', '\\']
  else if c.toNat = 7 then ['\\', 'a']
  else if c.toNat = 8 then ['\\', 'b']
  else if c.toNat = 12 then ['\\', 'f']
  else if c = '\n' then ['\\', 'n']
  else if c = '\r' then ['\\', 'r']
  else if c = '\t' then ['\\', 't']
  else if c.toNat = 11 then ['\\', 'v']
  else if c.toNat < 32 || c.toNat = 127 then
    ['\\', 'x', hexDigitLower (c.toNat / 16), hexDigitLower (c.toNat % 16)]
  else [c]

/-- Go's `strconv.Quote` / the `%q` format verb on a string. -/
def goQuote (s : String) : String :=
  "\"" ++ String.mk (s.toList.map goQuoteChar).flatten ++ "\""

/-- `fmt.Sprintf(attachmentFilenameFmt, filename)` of tfapi.go line 209,
with `attachmentFilenameFmt = "attachment; filename=%q"`. -/
def attachmentFilenameOf (filename : String) : String :=
  "attachment; filename=" ++ goQuote filename

/-! ## JSON marshalling (Go `encoding/json.Marshal`) -/

/-- A Go value as `encoding/json` sees it: JSON-serialisable shapes plus
`unsupported` for values (functions, channels, complex numbers) on which
`json.Marshal` fails. -/
inductive GoValue
  | null
  | bool (b : Bool)
  | num (n : Int)
  | str (s : String)
  | arr (xs : List GoValue)
  | obj (fields : List (String × GoValue))
  | unsupported (desc : String)

/-- One character of `encoding/json` string escaping: quote, backslash and
control characters escaped, and `<` `>` `&` HTML-escaped to `\u00XX` as
`json.Marshal` does by default. -/
def jsonEscapeChar (c : Char) : List Char :=
  if c = '"' then ['\\', '"']
  else if c = '\\' then ['\\', '\\']
  else if c = '\n' then ['\\', 'n']
  else if c = '\r' then ['\\', 'r']
  else if c = '\t' then ['\\', 't']
  else if c = '<' ∨ c = '>' ∨ c = '&' then
    ['\\', 'u', '0', '0', hexDigitLower (c.toNat / 16), hexDigitLower (c.toNat % 16)]
  else if c.toNat < 32 then
    ['\\', 'u', '0', '0', hexDigitLower (c.toNat / 16), hexDigitLower (c.toNat % 16)]
  else if c.toNat = 0x2028 ∨ c.toNat = 0x2029 then
    ['\\', 'u', '2', '0', '2', hexDigitLower (c.toNat % 16)]
  else [c]

/-- `encoding/json` rendering of a string, quotes included. -/
def jsonQuote (s : String) : String :=
  "\"" ++ String.mk (s.toList.map jsonEscapeChar).flatten ++ "\""

mutual

/-- Go's `json.Marshal` on a `GoValue`: the JSON text on success, the
marshalling error message on failure. -/
def jsonMarshalV : GoValue → Except String String
  | .null => .ok "null"
  | .bool b => .ok (if b then "true" else "false")
  | .num n => .ok (toString n)
  | .str s => .ok (jsonQuote s)
  | .arr xs =>
    match jsonMarshalL xs with
    | .error e => .error e
    | .ok parts => .ok ("[" ++ String.intercalate "," parts ++ "]")
  | .obj fs =>
    match jsonMarshalF fs with
    | .error e => .error e
    | .ok parts => .ok ("\x7b" ++ String.intercalate "," parts ++ "\x7d")
  | .unsupported desc => .error ("json: unsupported type: " ++ desc)

def jsonMarshalL : List GoValue → Except String (List String)
  | [] => .ok []
  | x :: xs =>
    match jsonMarshalV x with
    | .error e => .error e
    | .ok s =>
      match jsonMarshalL xs with
      | .error e => .error e
      | .ok rest => .ok (s :: rest)

def jsonMarshalF : List (String × GoValue) → Except String (List String)
  | [] => .ok []
  | (k, v) :: fs =>
    match jsonMarshalV v with
    | .error e => .error e
    | .ok s =>
      match jsonMarshalF fs with
      | .error e => .error e
      | .ok rest => .ok ((jsonQuote k ++ ":" ++ s) :: rest)

end

/-! ## Requests, responses and errors -/

/-- An HTTP request as this layer produces it: method, compiled URL, headers
(later `Header.Set` wins, one value per name) and the body bytes
(`none` when the Go body reader is nil). -/
structure GoRequest where
  method : String
  url : String
  headers : List (String × String)
  body : Option (List Nat)
deriving DecidableEq

/-- Go's `req.Header.Set name value`: replaces any existing value of the name. -/
def setHeader (r : GoRequest) (k v : String) : GoRequest :=
  { r with headers := (k, v) :: r.headers.filter (fun p => p.1 ≠ k) }

/-- The single value a header name carries, if set. -/
def getHeader (r : GoRequest) (k : String) : Option String :=
  (r.headers.find? (fun p => p.1 = k)).map (fun p => p.2)

/-- An HTTP response: status code and body text. -/
structure GoResponse where
  statusCode : Nat
  body : String
deriving DecidableEq

/-- The error taxonomy of this layer (spec section 7): serialization error,
wrapped transport error, structured API error, generic status-mismatch
error, and decode error on a success status. -/
inductive GoError
  | serialization (msg : String)
  | transport (method url cause : String)
  | apiError (status : Nat) (errors : List String)
  | statusMismatch (status : Nat) (method url : String)
  | decodeFailure (method url : String) (status : Nat)
deriving DecidableEq

/-- What `handleResponse` did to the response body: how many times the body
stream was closed and whether it was read. -/
structure HandleEffects where
  closeCount : Nat
  bodyRead : Bool
deriving DecidableEq

/-! ## Client middleware (tfapi.go lines 35-95) -/

/-- An HTTP client instance.  Object identity, which Lean lacks, is modelled
by an allocation tag `id`; `defaultConfigured` records that the instance came
from `cleanhttp.DefaultClient()` untouched. -/
structure HttpClient where
  id : Nat
  defaultConfigured : Bool
deriving DecidableEq

/-- `cleanhttp.DefaultClient()`: a fresh, default-configured client; the
argument is the allocation tag distinguishing this instance from others. -/
def cleanhttpDefaultClient (tag : Nat) : HttpClient :=
  { id := tag, defaultConfigured := true }

/-- Modelled from the spec: the `Config` type is declared outside `src/`;
the spec names the two fields this layer consumes, the registry base
address and the bearer token. -/
structure Config where
  TFAddress : String
  TFToken : String

structure tfClientMiddleware where
  addr : String
  bearerToken : String
  hc : HttpClient
deriving DecidableEq

/-- tfapi.go lines 41-48: trims the configured address with
`strings.Trim(cfg.TFAddress, "/")`, stores the token, allocates a default
client.  `ctr` threads the allocation tag; the Go error result is always nil
and is omitted. -/
def newTFClientMiddleware (cfg : Config) (ctr : Nat) : tfClientMiddleware × Nat :=
  ({ addr := goStringsTrim cfg.TFAddress '/',
     bearerToken := cfg.TFToken,
     hc := cleanhttpDefaultClient ctr }, ctr + 1)

/-- tfapi.go lines 52-57: shallow copy of the middleware, overriding the
http client with the one provided. -/
def tfClientMiddleware.copy (tm : tfClientMiddleware) (hc : HttpClient) :
    tfClientMiddleware :=
  { addr := tm.addr, bearerToken := tm.bearerToken, hc := hc }

/-- tfapi.go lines 59-61: `fmt.Sprintf("%s/%s", tm.addr, route)`. -/
def buildURL (tm : tfClientMiddleware) (route : String) : String :=
  tm.addr ++ "/" ++ route

/-- The body argument of `buildRequest`: an `io.Reader` stream, a `[]byte`
slice, or any other value (JSON-marshalled). -/
inductive GoBody
  | reader (data : List Nat)
  | bytes (data : List Nat)
  | structured (v : GoValue)

/-- The body-dispatch switch of tfapi.go lines 67-80, in source order:
`io.Reader` passes through, `[]byte` is wrapped in a buffer (same bytes),
anything else goes through `json.Marshal` whose failure aborts the build. -/
def bodyReaderBytes : Option GoBody → Except String (Option (List Nat))
  | none => .ok none
  | some (.reader d) => .ok (some d)
  | some (.bytes d) => .ok (some d)
  | some (.structured v) =>
    match jsonMarshalV v with
    | .error e => .error e
    | .ok s => .ok (some (strToBytes s))

/-- tfapi.go lines 63-90: dispatch the body, compile the URL from the base
address and the route, append the encoded query when the query has at least
one key, and build the request.  `http.NewRequestWithContext` never fails on
the constant methods and opaque URL strings this layer passes, so the only
error path is the marshalling one, reported as
`error marshalling body: <cause>`. -/
def buildRequest (tm : tfClientMiddleware) (method routePath : String)
    (query : List (String × List String)) (body : Option GoBody) :
    Except GoError GoRequest :=
  match bodyReaderBytes body with
  | .error e => .error (.serialization ("error marshalling body: " ++ e))
  | .ok bodyBytes =>
    let compiledURL := buildURL tm routePath
    let compiledURL :=
      if query.length > 0 then compiledURL ++ "?" ++ urlValuesEncode query
      else compiledURL
    .ok { method := method, url := compiledURL, headers := [], body := bodyBytes }

/-! ## Response handling and missing helpers (modelled from the spec) -/

/-- Modelled from the spec: `setBearerToken` is not under `src/` (only its
call sites are); the spec states metadata requests carry
`Authorization: Bearer <token>`. -/
def setBearerToken (r : GoRequest) (token : String) : GoRequest :=
  setHeader r headerAuthorization ("Bearer " ++ token)

/-- Modelled from the spec: `handleResponse` is not under `src/` (only its
call sites are).  The transport outcome `(resp, err)` of `tm.do` is one of a
response or a transport error, so it is passed as an `Except`.  The JSON
decoding machinery (also outside `src/`) is passed in: `decodeErr` is the
attempt to decode the body as the API's JSON error-object shape, `decodeOut`
the decode into the caller's out pointer (`none` when the out pointer is
nil).  Per the spec: a transport error is wrapped with the request's method
and URL and returned at once, the absent response untouched; otherwise the
body is fully read and closed exactly once on every path; a status different
from `expectedStatus` yields the structured API error when the body decodes
as the error shape and the generic status-mismatch error otherwise; a
matching status decodes into the out pointer when one is given (a failure
there is a hard decode error) and is bare success when none is. -/
def handleResponse {α : Type} (req : GoRequest)
    (result : Except String GoResponse)
    (decodeErr : String → Option (List String))
    (decodeOut : Option (String → Option α))
    (expectedStatus : Nat) : Except GoError (Option α) × HandleEffects :=
  match result with
  | .error e => (.error (.transport req.method req.url e), ⟨0, false⟩)
  | .ok resp =>
    if resp.statusCode ≠ expectedStatus then
      match decodeErr resp.body with
      | some errs => (.error (.apiError resp.statusCode errs), ⟨1, true⟩)
      | none => (.error (.statusMismatch resp.statusCode req.method req.url), ⟨1, true⟩)
    else
      match decodeOut with
      | none => (.ok none, ⟨1, true⟩)
      | some dec =>
        match dec resp.body with
        | some v => (.ok (some v), ⟨1, true⟩)
        | none => (.error (.decodeFailure req.method req.url resp.statusCode), ⟨1, true⟩)

/-- Modelled from the spec: `buildRoute` is not under `src/` (only its call
sites are); the spec states route paths are built by joining literal path
segments with `/` in the order given. -/
def buildRoute (segments : List String) : String :=
  String.intercalate "/" segments

/-! ## Clients and typed operations (tfapi.go lines 97-212) -/

structure TFClient where
  m : tfClientMiddleware
deriving DecidableEq

/-- tfapi.go lines 101-113.  The Go error result is always nil (the
middleware constructor cannot fail) and is omitted. -/
def NewTFClient (cfg : Config) (ctr : Nat) : TFClient × Nat :=
  let p := newTFClientMiddleware cfg ctr
  ({ m := p.1 }, p.2)

structure TFProviderClient where
  m : tfClientMiddleware
deriving DecidableEq

/-- tfapi.go lines 119-121: shares the client's middleware. -/
def TFClient.ProviderClient (tc : TFClient) : TFProviderClient :=
  { m := tc.m }

structure TFUploadsClient where
  m : tfClientMiddleware
deriving DecidableEq

/-- tfapi.go lines 199-201: the uploads client gets a copy of the middleware
holding a fresh `cleanhttp.DefaultClient()`; `ctr` is the allocation tag of
that fresh client. -/
def TFClient.UploadsClient (tc : TFClient) (ctr : Nat) : TFUploadsClient × Nat :=
  ({ m := tc.m.copy (cleanhttpDefaultClient ctr) }, ctr + 1)

/-- The route expression of tfapi.go lines 131-141. -/
def createProviderVersionRoute (orgName regName nspace provName : String) : String :=
  buildRoute
    [pathAPI, pathV2, pathOrganizations, orgName, pathRegistryProviders,
      regName, nspace, provName, pathVersions]

/-- The route expression of tfapi.go lines 166-178. -/
def createProviderVersionPlatformRoute
    (orgName regName nspace provName provVersion : String) : String :=
  buildRoute
    [pathAPI, pathV2, pathOrganizations, orgName, pathRegistryProviders,
      regName, nspace, provName, pathVersions, provVersion, pathPlatforms]

/-- The request-construction half of `CreateProviderVersion` (tfapi.go lines
123-148): build the POST request for the versions route with a nil query and
the structured body, set the bearer token, then the content-type and accept
headers. -/
def CreateProviderVersionRequest (tc : TFProviderClient)
    (orgName regName nspace provName : String) (data : GoValue) :
    Except GoError GoRequest :=
  match buildRequest tc.m httpMethodPost
      (createProviderVersionRoute orgName regName nspace provName) [] 
      (some (.structured data)) with
  | .error e => .error e
  | .ok req =>
    let req := setBearerToken req tc.m.bearerToken
    let req := setHeader req headerContentType applicationVNDAPIJSON
    let req := setHeader req headerAccept applicationJSON
    .ok req

/-- tfapi.go lines 123-155, end to end.  `tr` is the dispatch `tm.do` (the
transport), `decodeErr`/`decodeOut` the JSON decoders handleResponse needs;
the decoded `TFCreateProviderVersionResponse` is left generic in `α` since
its declaration is outside `src/`.  Success returns the decoded response. -/
def CreateProviderVersion {α : Type} (tc : TFProviderClient)
    (orgName regName nspace provName : String) (data : GoValue)
    (tr : GoRequest → Except String GoResponse)
    (decodeErr : String → Option (List String))
    (decodeOut : String → Option α) : Except GoError (Option α) :=
  match CreateProviderVersionRequest tc orgName regName nspace provName data with
  | .error e => .error e
  | .ok req =>
    (handleResponse req (tr req) decodeErr (some decodeOut) httpStatusCreated).1

/-- The request-construction half of `CreateProviderVersionPlatform`
(tfapi.go lines 157-185): same pattern on the nested platforms route. -/
def CreateProviderVersionPlatformRequest (tc : TFProviderClient)
    (orgName regName nspace provName provVersion : String) (data : GoValue) :
    Except GoError GoRequest :=
  match buildRequest tc.m httpMethodPost
      (createProviderVersionPlatformRoute orgName regName nspace provName provVersion)
      [] (some (.structured data)) with
  | .error e => .error e
  | .ok req =>
    let req := setBearerToken req tc.m.bearerToken
    let req := setHeader req headerContentType applicationVNDAPIJSON
    let req := setHeader req headerAccept applicationJSON
    .ok req

/-- tfapi.go lines 157-192, end to end. -/
def CreateProviderVersionPlatform {α : Type} (tc : TFProviderClient)
    (orgName regName nspace provName provVersion : String) (data : GoValue)
    (tr : GoRequest → Except String GoResponse)
    (decodeErr : String → Option (List String))
    (decodeOut : String → Option α) : Except GoError (Option α) :=
  match CreateProviderVersionPlatformRequest tc orgName regName nspace provName
      provVersion data with
  | .error e => .error e
  | .ok req =>
    (handleResponse req (tr req) decodeErr (some decodeOut) httpStatusCreated).1

/-- Modelled from the spec: the `TFFileUploadRequest` declaration is outside
`src/`; the spec lists its payload as destination URL, file content
(a byte stream), content type and filename. -/
structure TFFileUploadRequest where
  Destination : String
  File : List Nat
  ContentType : String
  Filename : String

/-- The request-construction half of `UploadFile` (tfapi.go lines 203-209):
`buildRequest` is called with the PUT method, `data.Destination` in the
route-path position, a nil query and the file stream as body; then the
content-type and content-disposition headers are set.  No bearer token is
attached. -/
def UploadFileRequest (tc : TFUploadsClient) (data : TFFileUploadRequest) :
    Except GoError GoRequest :=
  match buildRequest tc.m httpMethodPut data.Destination []
      (some (.reader data.File)) with
  | .error e => .error e
  | .ok req =>
    let req := setHeader req headerContentType data.ContentType
    let req := setHeader req headerContentDisposition
      (attachmentFilenameOf data.Filename)
    .ok req

/-- tfapi.go lines 203-212, end to end: dispatch and hand to `handleResponse`
with a nil out pointer and expected status 200. -/
def UploadFile (tc : TFUploadsClient) (data : TFFileUploadRequest)
    (tr : GoRequest → Except String GoResponse)
    (decodeErr : String → Option (List String)) : Except GoError Unit :=
  match UploadFileRequest tc data with
  | .error e => .error e
  | .ok req =>
    match (handleResponse req (tr req) decodeErr
        (none : Option (String → Option Unit)) httpStatusOK).1 with
    | .error e => .error e
    | .ok _ => .ok ()

/-! ## Shared helper lemmas and sample values -/

deriving instance DecidableEq for Except

/-- A request built by `buildRequest` carries the given method and starts
with no headers. -/
theorem buildRequest_ok_shape (tm : tfClientMiddleware) (method route : String)
    (query : List (String × List String)) (body : Option GoBody) (req : GoRequest)
    (h : buildRequest tm method route query body = .ok req) :
    req.method = method ∧ req.headers = [] := by
  unfold buildRequest at h
  cases hb : bodyReaderBytes body with
  | error e => rw [hb] at h; cases h
  | ok bb =>
    rw [hb] at h
    simp only [Except.ok.injEq] at h
    subst h
    exact ⟨rfl, rfl⟩

/-- On a success status the response handler returns the decoded value when
an out decoder is supplied and it succeeds. -/
theorem handleResponse_success_decode {α : Type} (req : GoRequest) (resp : GoResponse)
    (decodeErr : String → Option (List String)) (dec : String → Option α) (v : α)
    (expected : Nat) (hs : resp.statusCode = expected) (hd : dec resp.body = some v) :
    (handleResponse req (.ok resp) decodeErr (some dec) expected).1 = .ok (some v) := by
  simp [handleResponse, hs, hd]

/-- On a success status with a nil out pointer the response handler reports
bare success. -/
theorem handleResponse_success_nil {α : Type} (req : GoRequest) (resp : GoResponse)
    (decodeErr : String → Option (List String)) (expected : Nat)
    (hs : resp.statusCode = expected) :
    (handleResponse req (.ok resp) decodeErr (none : Option (String → Option α))
        expected).1 = .ok none := by
  simp [handleResponse, hs]

/-- On a non-matching status the response handler reports an error,
whichever way the body decodes. -/
theorem handleResponse_mismatch_error {α : Type} (req : GoRequest) (resp : GoResponse)
    (decodeErr : String → Option (List String)) (decodeOut : Option (String → Option α))
    (expected : Nat) (hs : resp.statusCode ≠ expected) :
    ((handleResponse req (.ok resp) decodeErr decodeOut expected).1).toOption = none := by
  simp only [handleResponse, hs, ne_eq, not_false_eq_true, if_true]
  cases decodeErr resp.body <;> rfl

/-- A sample middleware shared by the concrete instantiations below. -/
def mwSample : tfClientMiddleware :=
  { addr := "https://reg.example", bearerToken := "tok", hc := cleanhttpDefaultClient 0 }

def tcSample : TFProviderClient := { m := mwSample }

def ucSample : TFUploadsClient := { m := mwSample.copy (cleanhttpDefaultClient 1) }

def reqSample0 : GoRequest :=
  { method := "POST", url := "https://reg.example/u", headers := [], body := none }

def resp422 : GoResponse := { statusCode := 422, body := "" }

def transport201 : GoRequest → Except String GoResponse := fun _ => .ok ⟨201, "resp"⟩

def transport200 : GoRequest → Except String GoResponse := fun _ => .ok ⟨200, ""⟩

def transport500 : GoRequest → Except String GoResponse := fun _ => .ok ⟨500, ""⟩

def decodeErrNone : String → Option (List String) := fun _ => none

def decodeErrBoom : String → Option (List String) := fun _ => some ["boom"]

def decodeOutNat : String → Option Nat := fun _ => some 42

/-! ## Claim theorems -/

/-- Claim C1 (evaluation at the failing input): `UploadFile` does NOT issue
the PUT to the supplied destination URL.  The destination is passed to
`buildRequest` in the route position, so the target URL is the configured
base address, a slash, then the destination — here
`https://registry.example/https://storage.example/x` instead of the
pre-signed `https://storage.example/x`. -/
theorem C1_uploadFile_destination_base_prefixed :
    (UploadFileRequest
        ((NewTFClient ⟨"https://registry.example", "tok"⟩ 0).1.UploadsClient 1).1
        ⟨"https://storage.example/x", [1, 2], "application/zip", "f.zip"⟩).map
      (fun r => r.url)
      = .ok "https://registry.example/https://storage.example/x"
  ∧ "https://registry.example/https://storage.example/x"
      ≠ "https://storage.example/x" := by
  constructor
  · rfl
  · decide

/-- Claim C2: `buildRequest` dispatches a non-nil body by kind in source
order: an `io.Reader` or `[]byte` body becomes the request payload
byte-identical to the input and never fails; any other value is
JSON-marshalled, the marshalled text becoming the payload on success and a
serialization error being returned to the caller (no request, hence no
network activity) on failure. -/
theorem C2_buildRequest_body_dispatch (tm : tfClientMiddleware)
    (method route : String) (query : List (String × List String)) :
    (∀ d, (buildRequest tm method route query (some (.reader d))).map
        (fun r => r.body) = .ok (some d))
  ∧ (∀ d, (buildRequest tm method route query (some (.bytes d))).map
        (fun r => r.body) = .ok (some d))
  ∧ (∀ v s, jsonMarshalV v = .ok s →
      (buildRequest tm method route query (some (.structured v))).map
        (fun r => r.body) = .ok (some (strToBytes s)))
  ∧ (∀ v e, jsonMarshalV v = .error e →
      buildRequest tm method route query (some (.structured v))
        = .error (.serialization ("error marshalling body: " ++ e))) := by
  refine ⟨fun d => ?_, fun d => ?_, fun v s h => ?_, fun v e h => ?_⟩
  · simp [buildRequest, bodyReaderBytes, Except.map]
  · simp [buildRequest, bodyReaderBytes, Except.map]
  · simp [buildRequest, bodyReaderBytes, h, Except.map]
  · simp [buildRequest, bodyReaderBytes, h]

theorem C2_buildRequest_body_dispatch_witness :
    (buildRequest mwSample "POST" "r" [] (some (.reader [9, 8]))).map
        (fun r => r.body) = .ok (some [9, 8])
  ∧ (buildRequest mwSample "POST" "r" [] (some (.bytes [7]))).map
        (fun r => r.body) = .ok (some [7])
  ∧ (buildRequest mwSample "POST" "r" [] (some (.structured (.obj [])))).map
        (fun r => r.body) = .ok (some (strToBytes "\x7b\x7d"))
  ∧ buildRequest mwSample "POST" "r" [] (some (.structured (.unsupported "chan int")))
        = .error (.serialization ("error marshalling body: "
            ++ "json: unsupported type: chan int")) :=
  ⟨(C2_buildRequest_body_dispatch mwSample "POST" "r" []).1 [9, 8],
   (C2_buildRequest_body_dispatch mwSample "POST" "r" []).2.1 [7],
   (C2_buildRequest_body_dispatch mwSample "POST" "r" []).2.2.1 (.obj [])
     "\x7b\x7d" rfl,
   (C2_buildRequest_body_dispatch mwSample "POST" "r" []).2.2.2
     (.unsupported "chan int") "json: unsupported type: chan int" rfl⟩

/-- Claim C3 as stated is false: the base address is the configured address
with slashes trimmed from BOTH ends (`strings.Trim(cfg.TFAddress, "/")`),
not only trailing ones.  For the configured address `/acme/` the code
builds `acme/r` where trailing-only trimming would give `/acme/r`. -/
theorem C3_base_address_counterexample :
    (buildRequest ((NewTFClient ⟨"/acme/", "tok"⟩ 0).1).m "GET" "r" [] none).map
        (fun r => r.url)
      ≠ .ok (trimTrailingSlashes "/acme/" ++ "/" ++ "r") := by
  decide

/-- Claim C3 (amended: leading AND trailing slashes are removed from the
configured address): every request `buildRequest` builds targets the
trimmed configured address, a `/`, the route, and — exactly when the query
has at least one key — `?` followed by the URL-encoded query string. -/
theorem C3_buildRequest_url_amended (cfg : Config) (ctr : Nat)
    (method route : String) (query : List (String × List String))
    (body : Option GoBody) (req : GoRequest)
    (h : buildRequest ((NewTFClient cfg ctr).1).m method route query body = .ok req) :
    req.url = goStringsTrim cfg.TFAddress '/' ++ "/" ++ route
      ++ (if query.length > 0 then "?" ++ urlValuesEncode query else "") := by
  unfold buildRequest at h
  cases hb : bodyReaderBytes body with
  | error e => rw [hb] at h; cases h
  | ok bb =>
    rw [hb] at h
    simp only [Except.ok.injEq] at h
    subst h
    by_cases hq : query.length > 0 <;>
      simp [hq, buildURL, NewTFClient, newTFClientMiddleware, String.append_assoc]

theorem C3_buildRequest_url_amended_witness :
    (GoRequest.mk "GET" "https://reg.example/api/x?a=b+c" [] none).url
      = goStringsTrim "https://reg.example/" '/' ++ "/" ++ "api/x"
        ++ (if ([("a", ["b c"])] : List (String × List String)).length > 0
            then "?" ++ urlValuesEncode [("a", ["b c"])] else "") :=
  C3_buildRequest_url_amended ⟨"https://reg.example/", "t"⟩ 0 "GET" "api/x"
    [("a", ["b c"])] none (GoRequest.mk "GET" "https://reg.example/api/x?a=b+c" [] none)
    (by decide)

/-- Claim C4: route construction is deterministic and order-preserving — the
version-create route for org `acme`, registry `priv`, namespace `myorg`,
provider `tool` is exactly
`api/v2/organizations/acme/registry-providers/priv/myorg/tool/versions`,
and with version `1.2.3` appended the platform-create route is exactly that
route followed by `/1.2.3/platforms`. -/
theorem C4_routes_deterministic :
    createProviderVersionRoute "acme" "priv" "myorg" "tool"
      = "api/v2/organizations/acme/registry-providers/priv/myorg/tool/versions"
  ∧ createProviderVersionPlatformRoute "acme" "priv" "myorg" "tool" "1.2.3"
      = createProviderVersionRoute "acme" "priv" "myorg" "tool"
        ++ "/1.2.3/platforms" := by
  constructor <;> decide

/-- Unfolding of `CreateProviderVersion` once its request is built. -/
theorem CreateProviderVersion_eq {α : Type} (tc : TFProviderClient)
    (org reg nsp prov : String) (d : GoValue)
    (tr : GoRequest → Except String GoResponse)
    (decodeErr : String → Option (List String)) (decodeOut : String → Option α)
    (req : GoRequest)
    (h : CreateProviderVersionRequest tc org reg nsp prov d = .ok req) :
    CreateProviderVersion tc org reg nsp prov d tr decodeErr decodeOut
      = (handleResponse req (tr req) decodeErr (some decodeOut) httpStatusCreated).1 := by
  unfold CreateProviderVersion
  rw [h]

/-- Unfolding of `CreateProviderVersionPlatform` once its request is built. -/
theorem CreateProviderVersionPlatform_eq {α : Type} (tc : TFProviderClient)
    (org reg nsp prov ver : String) (d : GoValue)
    (tr : GoRequest → Except String GoResponse)
    (decodeErr : String → Option (List String)) (decodeOut : String → Option α)
    (req : GoRequest)
    (h : CreateProviderVersionPlatformRequest tc org reg nsp prov ver d = .ok req) :
    CreateProviderVersionPlatform tc org reg nsp prov ver d tr decodeErr decodeOut
      = (handleResponse req (tr req) decodeErr (some decodeOut) httpStatusCreated).1 := by
  unfold CreateProviderVersionPlatform
  rw [h]

/-- Unfolding of `UploadFile` once its request is built. -/
theorem UploadFile_eq (tc : TFUploadsClient) (data : TFFileUploadRequest)
    (tr : GoRequest → Except String GoResponse)
    (decodeErr : String → Option (List String)) (req : GoRequest)
    (h : UploadFileRequest tc data = .ok req) :
    UploadFile tc data tr decodeErr
      = match (handleResponse req (tr req) decodeErr
            (none : Option (String → Option Unit)) httpStatusOK).1 with
        | .error e => .error e
        | .ok _ => .ok () := by
  unfold UploadFile
  rw [h]

/-- The header decoration shared by the two create operations: bearer token
first, then content type, then accept. -/
theorem decoratedHeaders (r : GoRequest) (tok : String) (hh : r.headers = []) :
    (setHeader (setHeader (setBearerToken r tok) headerContentType applicationVNDAPIJSON)
        headerAccept applicationJSON).method = r.method
  ∧ getHeader (setHeader (setHeader (setBearerToken r tok) headerContentType
        applicationVNDAPIJSON) headerAccept applicationJSON) headerContentType
      = some applicationVNDAPIJSON
  ∧ getHeader (setHeader (setHeader (setBearerToken r tok) headerContentType
        applicationVNDAPIJSON) headerAccept applicationJSON) headerAccept
      = some applicationJSON
  ∧ getHeader (setHeader (setHeader (setBearerToken r tok) headerContentType
        applicationVNDAPIJSON) headerAccept applicationJSON) headerAuthorization
      = some ("Bearer " ++ tok) := by
  refine ⟨rfl, ?_, ?_, ?_⟩ <;>
    simp +decide [setHeader, setBearerToken, getHeader, hh, headerContentType,
      headerAccept, headerAuthorization, applicationJSON, applicationVNDAPIJSON]

/-- Claim C5: both create operations send a POST carrying
`Content-Type: application/vnd.api+json`, `Accept: application/json` and
bearer authorization, and treat HTTP 201 as the only success status: on a
201 response the decoded body is returned, on any other status an error. -/
theorem C5_create_ops_headers_status {α : Type} (tc : TFProviderClient)
    (org reg nsp prov ver : String) (d : GoValue)
    (tr : GoRequest → Except String GoResponse)
    (decodeErr : String → Option (List String)) (decodeOut : String → Option α) :
    (∀ req, CreateProviderVersionRequest tc org reg nsp prov d = .ok req →
        req.method = httpMethodPost
      ∧ getHeader req headerContentType = some applicationVNDAPIJSON
      ∧ getHeader req headerAccept = some applicationJSON
      ∧ getHeader req headerAuthorization = some ("Bearer " ++ tc.m.bearerToken)
      ∧ ∀ resp, tr req = .ok resp →
          ((∀ v, resp.statusCode = httpStatusCreated → decodeOut resp.body = some v →
              CreateProviderVersion tc org reg nsp prov d tr decodeErr decodeOut
                = .ok (some v))
          ∧ (resp.statusCode ≠ httpStatusCreated →
              (CreateProviderVersion tc org reg nsp prov d tr decodeErr
                  decodeOut).toOption = none)))
  ∧ (∀ req, CreateProviderVersionPlatformRequest tc org reg nsp prov ver d = .ok req →
        req.method = httpMethodPost
      ∧ getHeader req headerContentType = some applicationVNDAPIJSON
      ∧ getHeader req headerAccept = some applicationJSON
      ∧ getHeader req headerAuthorization = some ("Bearer " ++ tc.m.bearerToken)
      ∧ ∀ resp, tr req = .ok resp →
          ((∀ v, resp.statusCode = httpStatusCreated → decodeOut resp.body = some v →
              CreateProviderVersionPlatform tc org reg nsp prov ver d tr decodeErr
                decodeOut = .ok (some v))
          ∧ (resp.statusCode ≠ httpStatusCreated →
              (CreateProviderVersionPlatform tc org reg nsp prov ver d tr decodeErr
                  decodeOut).toOption = none))) := by
  constructor
  · intro req h
    have h0 := h
    unfold CreateProviderVersionRequest at h0
    cases hb : buildRequest tc.m httpMethodPost
        (createProviderVersionRoute org reg nsp prov) [] (some (.structured d)) with
    | error e => rw [hb] at h0; cases h0
    | ok r =>
      rw [hb] at h0
      simp only [Except.ok.injEq] at h0
      obtain ⟨hm, hhr⟩ := buildRequest_ok_shape _ _ _ _ _ _ hb
      obtain ⟨d1, d2, d3, d4⟩ := decoratedHeaders r tc.m.bearerToken hhr
      subst h0
      refine ⟨by rw [d1, hm], d2, d3, d4, ?_⟩
      intro resp hresp
      constructor
      · intro v hs hd
        rw [CreateProviderVersion_eq tc org reg nsp prov d tr decodeErr decodeOut _ h,
          hresp]
        exact handleResponse_success_decode _ _ _ _ _ _ hs hd
      · intro hs
        rw [CreateProviderVersion_eq tc org reg nsp prov d tr decodeErr decodeOut _ h,
          hresp]
        exact handleResponse_mismatch_error _ _ _ _ _ hs
  · intro req h
    have h0 := h
    unfold CreateProviderVersionPlatformRequest at h0
    cases hb : buildRequest tc.m httpMethodPost
        (createProviderVersionPlatformRoute org reg nsp prov ver) []
        (some (.structured d)) with
    | error e => rw [hb] at h0; cases h0
    | ok r =>
      rw [hb] at h0
      simp only [Except.ok.injEq] at h0
      obtain ⟨hm, hhr⟩ := buildRequest_ok_shape _ _ _ _ _ _ hb
      obtain ⟨d1, d2, d3, d4⟩ := decoratedHeaders r tc.m.bearerToken hhr
      subst h0
      refine ⟨by rw [d1, hm], d2, d3, d4, ?_⟩
      intro resp hresp
      constructor
      · intro v hs hd
        rw [CreateProviderVersionPlatform_eq tc org reg nsp prov ver d tr decodeErr
          decodeOut _ h, hresp]
        exact handleResponse_success_decode _ _ _ _ _ _ hs hd
      · intro hs
        rw [CreateProviderVersionPlatform_eq tc org reg nsp prov ver d tr decodeErr
          decodeOut _ h, hresp]
        exact handleResponse_mismatch_error _ _ _ _ _ hs

/-- The request the version-create builder produces for the sample inputs. -/
def reqVSample : GoRequest :=
  { method := "POST"
  , url := "https://reg.example/api/v2/organizations/acme/registry-providers/priv/myorg/tool/versions"
  , headers := [(headerAccept, applicationJSON),
      (headerContentType, applicationVNDAPIJSON), (headerAuthorization, "Bearer tok")]
  , body := some [123, 125] }

/-- The request the platform-create builder produces for the sample inputs. -/
def reqPSample : GoRequest :=
  { method := "POST"
  , url := "https://reg.example/api/v2/organizations/acme/registry-providers/priv/myorg/tool/versions/1.2.3/platforms"
  , headers := [(headerAccept, applicationJSON),
      (headerContentType, applicationVNDAPIJSON), (headerAuthorization, "Bearer tok")]
  , body := some [123, 125] }

theorem C5_create_ops_headers_status_witness :
    reqVSample.method = httpMethodPost
  ∧ getHeader reqVSample headerContentType = some applicationVNDAPIJSON
  ∧ getHeader reqVSample headerAccept = some applicationJSON
  ∧ getHeader reqVSample headerAuthorization = some ("Bearer " ++ tcSample.m.bearerToken)
  ∧ CreateProviderVersion tcSample "acme" "priv" "myorg" "tool" (.obj [])
      transport201 decodeErrNone decodeOutNat = .ok (some 42)
  ∧ (CreateProviderVersion tcSample "acme" "priv" "myorg" "tool" (.obj [])
      transport500 decodeErrNone decodeOutNat).toOption = none
  ∧ reqPSample.method = httpMethodPost
  ∧ CreateProviderVersionPlatform tcSample "acme" "priv" "myorg" "tool" "1.2.3"
      (.obj []) transport201 decodeErrNone decodeOutNat = .ok (some 42)
  ∧ (CreateProviderVersionPlatform tcSample "acme" "priv" "myorg" "tool" "1.2.3"
      (.obj []) transport500 decodeErrNone decodeOutNat).toOption = none := by
  have hV201 := (C5_create_ops_headers_status tcSample "acme" "priv" "myorg" "tool"
    "1.2.3" (.obj []) transport201 decodeErrNone decodeOutNat).1 reqVSample (by decide)
  have hV500 := (C5_create_ops_headers_status tcSample "acme" "priv" "myorg" "tool"
    "1.2.3" (.obj []) transport500 decodeErrNone decodeOutNat).1 reqVSample (by decide)
  have hP201 := (C5_create_ops_headers_status tcSample "acme" "priv" "myorg" "tool"
    "1.2.3" (.obj []) transport201 decodeErrNone decodeOutNat).2 reqPSample (by decide)
  have hP500 := (C5_create_ops_headers_status tcSample "acme" "priv" "myorg" "tool"
    "1.2.3" (.obj []) transport500 decodeErrNone decodeOutNat).2 reqPSample (by decide)
  refine ⟨hV201.1, hV201.2.1, hV201.2.2.1, hV201.2.2.2.1, ?_, ?_, hP201.1, ?_, ?_⟩
  · exact (hV201.2.2.2.2 ⟨201, "resp"⟩ rfl).1 42 rfl rfl
  · exact (hV500.2.2.2.2 ⟨500, ""⟩ rfl).2 (by decide)
  · exact (hP201.2.2.2.2 ⟨201, "resp"⟩ rfl).1 42 rfl rfl
  · exact (hP500.2.2.2.2 ⟨500, ""⟩ rfl).2 (by decide)

/-- Claim C6: every upload request carries `Content-Type` equal to the
supplied content type and `Content-Disposition: attachment; filename="..."`
with the supplied filename quoted, carries no `Authorization` header, and
HTTP 200 is the only success status: 200 yields no error, anything else an
error. -/
theorem C6_uploadFile_headers_status (tc : TFUploadsClient)
    (data : TFFileUploadRequest) (tr : GoRequest → Except String GoResponse)
    (decodeErr : String → Option (List String)) :
    ∀ req, UploadFileRequest tc data = .ok req →
        getHeader req headerContentType = some data.ContentType
      ∧ getHeader req headerContentDisposition
          = some ("attachment; filename=" ++ goQuote data.Filename)
      ∧ getHeader req headerAuthorization = none
      ∧ ∀ resp, tr req = .ok resp →
          ((resp.statusCode = httpStatusOK →
              UploadFile tc data tr decodeErr = .ok ())
          ∧ (resp.statusCode ≠ httpStatusOK →
              (UploadFile tc data tr decodeErr).toOption = none)) := by
  intro req h
  have h0 := h
  unfold UploadFileRequest at h0
  cases hb : buildRequest tc.m httpMethodPut data.Destination []
      (some (.reader data.File)) with
  | error e => rw [hb] at h0; cases h0
  | ok r =>
    rw [hb] at h0
    simp only [Except.ok.injEq] at h0
    obtain ⟨hm, hhr⟩ := buildRequest_ok_shape _ _ _ _ _ _ hb
    refine ⟨?_, ?_, ?_, ?_⟩
    · rw [← h0]
      simp +decide [setHeader, getHeader, hhr, headerContentType,
        headerContentDisposition, attachmentFilenameOf]
    · rw [← h0]
      simp +decide [setHeader, getHeader, hhr, headerContentType,
        headerContentDisposition, attachmentFilenameOf]
    · rw [← h0]
      simp +decide [setHeader, getHeader, hhr, headerContentType,
        headerContentDisposition, headerAuthorization]
    · intro resp hresp
      constructor
      · intro hs
        rw [UploadFile_eq tc data tr decodeErr _ h, hresp,
          handleResponse_success_nil _ _ _ _ hs]
      · intro hs
        have hmm := handleResponse_mismatch_error req resp decodeErr
          (none : Option (String → Option Unit)) httpStatusOK hs
        rw [UploadFile_eq tc data tr decodeErr _ h, hresp]
        cases hx : (handleResponse req (.ok resp) decodeErr
            (none : Option (String → Option Unit)) httpStatusOK).1 with
        | error e => rfl
        | ok u => rw [hx] at hmm; simp [Except.toOption] at hmm

def uploadDataSample : TFFileUploadRequest :=
  { Destination := "https://storage.example/x", File := [1, 2],
    ContentType := "application/zip", Filename := "f.zip" }

/-- The request the upload builder produces for the sample inputs. -/
def reqUSample : GoRequest :=
  { method := "PUT"
  , url := "https://reg.example/https://storage.example/x"
  , headers := [(headerContentDisposition, "attachment; filename=\"f.zip\""),
      (headerContentType, "application/zip")]
  , body := some [1, 2] }

theorem C6_uploadFile_headers_status_witness :
    getHeader reqUSample headerContentType = some "application/zip"
  ∧ getHeader reqUSample headerContentDisposition
      = some ("attachment; filename=" ++ goQuote "f.zip")
  ∧ getHeader reqUSample headerAuthorization = none
  ∧ UploadFile ucSample uploadDataSample transport200 decodeErrNone = .ok ()
  ∧ (UploadFile ucSample uploadDataSample transport500 decodeErrNone).toOption
      = none := by
  have h200 := C6_uploadFile_headers_status ucSample uploadDataSample transport200
    decodeErrNone reqUSample (by decide)
  have h500 := C6_uploadFile_headers_status ucSample uploadDataSample transport500
    decodeErrNone reqUSample (by decide)
  refine ⟨h200.1, h200.2.1, h200.2.2.1, ?_, ?_⟩
  · exact (h200.2.2.2 ⟨200, ""⟩ rfl).1 rfl
  · exact (h500.2.2.2 ⟨500, ""⟩ rfl).2 (by decide)

/-- Claim C7: when the transport reports an error, `handleResponse` returns
an error wrapping the cause together with the request's method and URL, at
once — the body is never read and the close count is zero. -/
theorem C7_handleResponse_transport_error {α : Type} (req : GoRequest) (e : String)
    (decodeErr : String → Option (List String))
    (decodeOut : Option (String → Option α)) (expected : Nat) :
    handleResponse req (.error e) decodeErr decodeOut expected
      = (.error (.transport req.method req.url e),
          { closeCount := 0, bodyRead := false }) := rfl

/-- Claim C8: on a status different from the expected one, the error is
determined by the body's decodability: the structured API error carrying the
status and the decoded details when the body decodes as the API's JSON
error-object shape, and otherwise the generic status-mismatch error carrying
the raw status and the request's method and URL (no decode failure). -/
theorem C8_handleResponse_status_mismatch {α : Type} (req : GoRequest)
    (resp : GoResponse) (decodeErr : String → Option (List String))
    (decodeOut : Option (String → Option α)) (expected : Nat)
    (hne : resp.statusCode ≠ expected) :
    (∀ errs, decodeErr resp.body = some errs →
        (handleResponse req (.ok resp) decodeErr decodeOut expected).1
          = .error (.apiError resp.statusCode errs))
  ∧ (decodeErr resp.body = none →
        (handleResponse req (.ok resp) decodeErr decodeOut expected).1
          = .error (.statusMismatch resp.statusCode req.method req.url)) := by
  constructor
  · intro errs hd
    simp [handleResponse, hne, hd]
  · intro hd
    simp [handleResponse, hne, hd]

theorem C8_handleResponse_status_mismatch_witness :
    (handleResponse reqSample0 (.ok resp422) decodeErrBoom
        (none : Option (String → Option Nat)) 201).1
      = .error (.apiError 422 ["boom"])
  ∧ (handleResponse reqSample0 (.ok resp422) decodeErrNone
        (none : Option (String → Option Nat)) 201).1
      = .error (.statusMismatch 422 "POST" "https://reg.example/u") :=
  ⟨(C8_handleResponse_status_mismatch reqSample0 resp422 decodeErrBoom
      (none : Option (String → Option Nat)) 201 (by decide)).1 ["boom"] rfl,
   (C8_handleResponse_status_mismatch reqSample0 resp422 decodeErrNone
      (none : Option (String → Option Nat)) 201 (by decide)).2 rfl⟩

/-- Claim C9: whenever a response exists, `handleResponse` fully reads and
closes its body exactly once before returning, on every exit path; when no
response exists because of a transport error, the close count is zero. -/
theorem C9_handleResponse_close_once {α : Type} (req : GoRequest)
    (result : Except String GoResponse) (decodeErr : String → Option (List String))
    (decodeOut : Option (String → Option α)) (expected : Nat) :
    (∀ resp, result = .ok resp →
        (handleResponse req result decodeErr decodeOut expected).2
          = { closeCount := 1, bodyRead := true })
  ∧ (∀ e, result = .error e →
        (handleResponse req result decodeErr decodeOut expected).2
          = { closeCount := 0, bodyRead := false }) := by
  constructor
  · rintro resp rfl
    simp only [handleResponse]
    by_cases hs : resp.statusCode ≠ expected
    · rw [if_pos hs]
      cases decodeErr resp.body <;> rfl
    · rw [if_neg hs]
      cases decodeOut with
      | none => rfl
      | some dec => cases hd : dec resp.body <;> simp [hd]
  · rintro e rfl
    rfl

theorem C9_handleResponse_close_once_witness :
    (handleResponse reqSample0 (.ok resp422) decodeErrNone
        (none : Option (String → Option Nat)) 200).2
      = { closeCount := 1, bodyRead := true }
  ∧ (handleResponse reqSample0 (.error "dns failure") decodeErrNone
        (none : Option (String → Option Nat)) 200).2
      = { closeCount := 0, bodyRead := false } :=
  ⟨(C9_handleResponse_close_once reqSample0 (.ok resp422) decodeErrNone
      (none : Option (String → Option Nat)) 200).1 resp422 rfl,
   (C9_handleResponse_close_once reqSample0 (.error "dns failure") decodeErrNone
      (none : Option (String → Option Nat)) 200).2 "dns failure" rfl⟩

/-- Claim C10: deriving the uploads client copies the middleware with a
fresh, default-configured HTTP client distinct from the metadata client's,
sharing the base address and bearer token; the metadata client's middleware
still holds exactly its construction-time address, token and transport
afterwards (the copy allocates a new record, so the original cannot be
mutated in this embedding). -/
theorem C10_uploads_client_isolation (cfg : Config) (ctr : Nat) :
    ((NewTFClient cfg ctr).1.UploadsClient (NewTFClient cfg ctr).2).1.m.hc
        ≠ (NewTFClient cfg ctr).1.m.hc
  ∧ ((NewTFClient cfg ctr).1.UploadsClient
        (NewTFClient cfg ctr).2).1.m.hc.defaultConfigured = true
  ∧ ((NewTFClient cfg ctr).1.UploadsClient (NewTFClient cfg ctr).2).1.m.addr
      = (NewTFClient cfg ctr).1.m.addr
  ∧ ((NewTFClient cfg ctr).1.UploadsClient (NewTFClient cfg ctr).2).1.m.bearerToken
      = (NewTFClient cfg ctr).1.m.bearerToken
  ∧ (NewTFClient cfg ctr).1.m.addr = goStringsTrim cfg.TFAddress '/'
  ∧ (NewTFClient cfg ctr).1.m.bearerToken = cfg.TFToken
  ∧ (NewTFClient cfg ctr).1.m.hc = cleanhttpDefaultClient ctr := by
  refine ⟨?_, rfl, rfl, rfl, rfl, rfl, rfl⟩
  simp only [NewTFClient, newTFClientMiddleware, TFClient.UploadsClient,
    tfClientMiddleware.copy, cleanhttpDefaultClient, ne_eq, HttpClient.mk.injEq,
    not_and]
  omega
